import Mathlib

/-!
Verification of the ProductiveMayo efficiency-scoring core.

We embed the efficiency calculator (`calculateEfficiency`) and the daily
stats updater (`updateDailyEfficiency`), together with the task-completion
toggle flow (`toggleTaskCompletion`) that invokes it, as Lean functions.
Numeric work in the source is done on JavaScript numbers; concrete inputs
in the claims are small integers, so we model the arithmetic exactly over
the rationals, with the final `Math.round` as rounding half away from
zero toward positive infinity (Mathlib's `round`).  Database rows whose
integer columns may be null are modelled with `Option Nat`, and the
source's `x || 0` coalescing as `Option.getD 0`.
-/

namespace ProductiveMayo

/-- Component 1 of `calculateEfficiency` (task completion, 35% weight):
the amount added to `efficiency` by the `tasksCompleted > 0` block. -/
def taskComponent (tasksPlanned tasksCompleted : ℕ) : ℚ :=
  if tasksCompleted > 0 then
    (if tasksPlanned > 0 then
      min 100 ((tasksCompleted : ℚ) / (tasksPlanned : ℚ) * 100)
    else
      min 100 ((tasksCompleted : ℚ) * 20)) * (35 / 100)
  else 0

/-- Component 2 of `calculateEfficiency` (pomodoro consistency, 35% weight):
the amount added to `efficiency` by the `pomodorosSessions > 0` block.
The ideal range is 6–10 sessions. -/
def pomodoroComponent (pomodorosSessions : ℕ) : ℚ :=
  if pomodorosSessions > 0 then
    (if pomodorosSessions < 6 then
      ((pomodorosSessions : ℚ) / 6) * 100
    else if pomodorosSessions > 10 then
      max 70 (100 - ((pomodorosSessions : ℚ) - 10) * 5)
    else 100) * (35 / 100)
  else 0

/-- Component 3 of `calculateEfficiency` (focus time quality, 30% weight):
the amount added to `efficiency` by the `focusTime > 0` block.
The ideal range is 120–360 minutes. -/
def focusComponent (focusTime : ℕ) : ℚ :=
  if focusTime > 0 then
    (if focusTime < 120 then
      ((focusTime : ℚ) / 120) * 100
    else if focusTime > 360 then
      max 80 (100 - (((focusTime : ℚ) - 360) / 60) * 3)
    else 100) * (30 / 100)
  else 0

/-- `calculateEfficiency` from the efficiency utility module: returns 0 when
all three activity inputs are zero, otherwise accumulates the three weighted
components and returns `Math.round(Math.min(100, Math.max(0, efficiency)))`. -/
def calculateEfficiency (tasksPlanned tasksCompleted pomodorosSessions focusTime : ℕ) : ℤ :=
  if tasksCompleted = 0 ∧ pomodorosSessions = 0 ∧ focusTime = 0 then 0
  else
    round (min 100 (max 0
      (taskComponent tasksPlanned tasksCompleted
        + pomodoroComponent pomodorosSessions
        + focusComponent focusTime)))

/-- A row of the `tasks` table, restricted to the columns the flows under
verification read or write: the primary key, the `completed` flag and the
`start_time` timestamp (modelled as an abstract instant on a discrete
timeline, ordered as the SQL comparisons order the timestamp strings). -/
structure TaskRow where
  id : Nat
  completed : Bool
  start_time : Nat
deriving DecidableEq

/-- The `user_stats` row for `(userId, today)`.  Integer columns are nullable
in the store; the source coalesces them with `|| 0`, modelled as
`Option.getD 0`. -/
structure StatsRow where
  id : Nat
  tasks_completed : Option Nat
  pomodoro_sessions : Option Nat
  focus_time : Option Nat
  efficiency_score : Option Int
deriving DecidableEq

/-- The slice of the external Supabase state, for a fixed user and a fixed
"today", that the task-completion and daily-efficiency flows touch, plus
flags recording which storage operations fail during the run.  `dayStart`
and `dayEnd` are the instants of today's `T00:00:00` and `T23:59:59`
bounds used by the planned-task range query; `freshId` is the store-chosen
primary key for a row inserted during the run. -/
structure State where
  tasks : List TaskRow
  statsToday : Option StatsRow
  dayStart : Nat
  dayEnd : Nat
  statsFetchFails : Bool
  tasksFetchFails : Bool
  statsWriteFails : Bool
  taskWriteFails : Bool
  hasUser : Bool
  freshId : Nat
deriving DecidableEq

/-- The planned-task count: the number of `tasks` rows whose `start_time`
lies in today's window (the `gte`/`lte` range query of
`updateDailyEfficiency`). -/
def tasksPlannedCount (s : State) : Nat :=
  (s.tasks.filter (fun t => s.dayStart ≤ t.start_time && t.start_time ≤ s.dayEnd)).length

/-- `updateDailyEfficiency` from the efficiency utility module, on the state
model.  It fetches today's `user_stats` row (returning unchanged on fetch
error or missing row), counts today's planned tasks (a failed tasks query is
ignored and yields a null list, hence count 0), adds `additionalTasks` to the
stored `tasks_completed`, recomputes the score, and writes back
`efficiency_score` — together with `tasks_completed` exactly when
`additionalTasks > 0` — to the row it fetched (`eq('id', stats.id)`); a
failed write is logged and changes nothing. -/
def updateDailyEfficiency (s : State) (additionalTasks : Nat) : State :=
  if s.statsFetchFails then s
  else
    match s.statsToday with
    | none => s
    | some stats =>
      let tasksPlanned := if s.tasksFetchFails then 0 else tasksPlannedCount s
      let tasksCompleted := stats.tasks_completed.getD 0 + additionalTasks
      let efficiency := calculateEfficiency tasksPlanned tasksCompleted
          (stats.pomodoro_sessions.getD 0) (stats.focus_time.getD 0)
      if s.statsWriteFails then s
      else
        let newRow : StatsRow :=
          { stats with
            efficiency_score := some efficiency,
            tasks_completed :=
              if additionalTasks > 0 then some tasksCompleted else stats.tasks_completed }
        { s with statsToday := some newRow }

/-- `toggleTaskCompletion` from the calendar component, on the state model:
flip the task's `completed` flag in the `tasks` table (on write error, toast
and return); then, only when the task was incomplete (`completed = false`)
and a user is present, fetch today's `user_stats` row (a fetch error is
ignored, leaving null data), increment its `tasks_completed` by 1 — or
insert a fresh row with `tasks_completed = 1` when none exists — and finally
invoke `updateDailyEfficiency` with `additionalTasks = 1`. -/
def toggleTaskCompletion (s : State) (taskId : Nat) (completed : Bool) : State :=
  if s.taskWriteFails then s
  else
    let newTasks :=
      s.tasks.map fun t => if t.id = taskId then { t with completed := !completed } else t
    let s1 := { s with tasks := newTasks }
    if !completed then
      if s1.hasUser then
        let existingStats := if s1.statsFetchFails then none else s1.statsToday
        match existingStats with
        | some stats =>
          let bumped : StatsRow :=
            { stats with tasks_completed := some (stats.tasks_completed.getD 0 + 1) }
          let s2 :=
            if s1.statsWriteFails then s1 else { s1 with statsToday := some bumped }
          updateDailyEfficiency s2 1
        | none =>
          let inserted : StatsRow :=
            { id := s1.freshId, tasks_completed := some 1,
              pomodoro_sessions := none, focus_time := none, efficiency_score := none }
          let s2 :=
            if s1.statsWriteFails then s1 else { s1 with statsToday := some inserted }
          updateDailyEfficiency s2 1
      else s1
    else s1

/-- C2: for every tuple of non-negative integers (tasksPlanned, tasksCompleted,
pomodorosSessions, focusTime), `calculateEfficiency` returns an integer n with
0 ≤ n ≤ 100; it is a total Lean function over ℕ⁴, so it never fails on that
domain. -/
theorem calculateEfficiency_range (tp tc ps ft : ℕ) :
    0 ≤ calculateEfficiency tp tc ps ft ∧ calculateEfficiency tp tc ps ft ≤ 100 := by
  unfold calculateEfficiency
  split
  · norm_num
  · set e : ℚ := taskComponent tp tc + pomodoroComponent ps + focusComponent ft with he
    have h0 : (0 : ℚ) ≤ min 100 (max 0 e) := le_min (by norm_num) (le_max_left 0 e)
    have h1 : min 100 (max 0 e) ≤ 100 := min_le_left _ _
    constructor
    · rw [round_eq]
      exact Int.floor_nonneg.mpr (by linarith)
    · rw [round_eq]
      have h2 : min 100 (max 0 e) + 1 / 2 ≤ (100 : ℚ) + 1 / 2 := by linarith
      calc ⌊min 100 (max 0 e) + 1 / 2⌋ ≤ ⌊(100 : ℚ) + 1 / 2⌋ := Int.floor_mono h2
        _ = 100 := by norm_num

/-- C3: whenever tasksCompleted = 0, pomodorosSessions = 0 and focusTime = 0,
`calculateEfficiency` returns exactly 0 regardless of tasksPlanned; in
particular at (0,0,0,0) and for a day with tasks planned but zero activity. -/
theorem calculateEfficiency_all_zero_activity (tp : ℕ) :
    calculateEfficiency tp 0 0 0 = 0 := by
  simp [calculateEfficiency]

/-- C4: for tasksCompleted > 0 the task-completion contribution is
min(100, 100 × tasksCompleted / tasksPlanned) when tasksPlanned > 0 and
min(100, tasksCompleted × 20) when tasksPlanned = 0, weighted by 0.35; in
particular the score at (10,12,0,0) is 35 and at (0,2,0,0) is 14. -/
theorem taskComponent_spec :
    (∀ tp tc : ℕ, 0 < tc → taskComponent tp tc =
      (if 0 < tp then min 100 (100 * (tc : ℚ) / tp) else min 100 ((tc : ℚ) * 20)) * (35 / 100))
    ∧ calculateEfficiency 10 12 0 0 = 35 ∧ calculateEfficiency 0 2 0 0 = 14 := by
  refine ⟨fun tp tc htc => ?_, ?_, ?_⟩
  · unfold taskComponent
    rw [if_pos htc]
    by_cases htp : 0 < tp
    · rw [if_pos htp, if_pos htp]
      have : (tc : ℚ) / tp * 100 = 100 * (tc : ℚ) / tp := by ring
      rw [this]
    · rw [if_neg htp, if_neg htp]
  · norm_num [calculateEfficiency, taskComponent, pomodoroComponent, focusComponent, round_eq]
  · norm_num [calculateEfficiency, taskComponent, pomodoroComponent, focusComponent, round_eq]

/-- C4 witness: the characterization instantiated at tasksPlanned = 10,
tasksCompleted = 12. -/
theorem taskComponent_spec_witness :
    taskComponent 10 12 =
      (if 0 < (10 : ℕ) then min 100 (100 * (12 : ℚ) / 10) else min 100 ((12 : ℚ) * 20))
        * (35 / 100) :=
  taskComponent_spec.1 10 12 (by norm_num)

/-- C5: for pomodorosSessions > 0 the pomodoro contribution is
100 × p / 6 below 6, exactly 100 within [6,10], and
max(70, 100 − 5 × (p − 10)) above 10 (never below 70), weighted by 0.35;
in particular the score at (0,0,15,0) is 26 (26.25 rounds to 26). -/
theorem pomodoroComponent_spec :
    (∀ p : ℕ, 0 < p → p < 6 → pomodoroComponent p = 100 * (p : ℚ) / 6 * (35 / 100))
    ∧ (∀ p : ℕ, 6 ≤ p → p ≤ 10 → pomodoroComponent p = 100 * (35 / 100))
    ∧ (∀ p : ℕ, 10 < p →
        pomodoroComponent p = max 70 (100 - 5 * ((p : ℚ) - 10)) * (35 / 100))
    ∧ calculateEfficiency 0 0 15 0 = 26 := by
  refine ⟨fun p hp hlt => ?_, fun p h6 h10 => ?_, fun p h10 => ?_, ?_⟩
  · unfold pomodoroComponent
    rw [if_pos hp, if_pos hlt]
    have : ((p : ℚ) / 6) * 100 = 100 * (p : ℚ) / 6 := by ring
    rw [this]
  · unfold pomodoroComponent
    rw [if_pos (by omega : p > 0), if_neg (by omega : ¬p < 6), if_neg (by omega : ¬p > 10)]
  · unfold pomodoroComponent
    rw [if_pos (by omega : p > 0), if_neg (by omega : ¬p < 6), if_pos h10]
    have : 100 - ((p : ℚ) - 10) * 5 = 100 - 5 * ((p : ℚ) - 10) := by ring
    rw [this]
  · norm_num [calculateEfficiency, taskComponent, pomodoroComponent, focusComponent, round_eq]

/-- C5 witness: the three branch characterizations instantiated at
pomodorosSessions = 3, 8 and 15. -/
theorem pomodoroComponent_spec_witness :
    pomodoroComponent 3 = 100 * (3 : ℚ) / 6 * (35 / 100)
    ∧ pomodoroComponent 8 = 100 * (35 / 100)
    ∧ pomodoroComponent 15 = max 70 (100 - 5 * ((15 : ℚ) - 10)) * (35 / 100) :=
  ⟨pomodoroComponent_spec.1 3 (by norm_num) (by norm_num),
   pomodoroComponent_spec.2.1 8 (by norm_num) (by norm_num),
   pomodoroComponent_spec.2.2.1 15 (by norm_num)⟩

/-- C6: for focusTime > 0 the focus-time contribution is 100 × f / 120 below
120, exactly 100 within [120,360], and max(80, 100 − 3 × ((f − 360) / 60))
above 360 (never below 80), weighted by 0.30; the total is the rounding of
the clamped weighted sum of the three components, and the score at
(4,4,8,240) is 100. -/
theorem focusComponent_spec :
    (∀ f : ℕ, 0 < f → f < 120 → focusComponent f = 100 * (f : ℚ) / 120 * (30 / 100))
    ∧ (∀ f : ℕ, 120 ≤ f → f ≤ 360 → focusComponent f = 100 * (30 / 100))
    ∧ (∀ f : ℕ, 360 < f →
        focusComponent f = max 80 (100 - 3 * (((f : ℚ) - 360) / 60)) * (30 / 100))
    ∧ (∀ tp tc ps ft : ℕ, ¬(tc = 0 ∧ ps = 0 ∧ ft = 0) →
        calculateEfficiency tp tc ps ft = round (min 100 (max 0
          (taskComponent tp tc + pomodoroComponent ps + focusComponent ft))))
    ∧ calculateEfficiency 4 4 8 240 = 100 := by
  refine ⟨fun f hf hlt => ?_, fun f h120 h360 => ?_, fun f h360 => ?_,
    fun tp tc ps ft h => ?_, ?_⟩
  · unfold focusComponent
    rw [if_pos hf, if_pos hlt]
    have : ((f : ℚ) / 120) * 100 = 100 * (f : ℚ) / 120 := by ring
    rw [this]
  · unfold focusComponent
    rw [if_pos (by omega : f > 0), if_neg (by omega : ¬f < 120), if_neg (by omega : ¬f > 360)]
  · unfold focusComponent
    rw [if_pos (by omega : f > 0), if_neg (by omega : ¬f < 120), if_pos h360]
    have : 100 - (((f : ℚ) - 360) / 60) * 3 = 100 - 3 * (((f : ℚ) - 360) / 60) := by ring
    rw [this]
  · unfold calculateEfficiency
    rw [if_neg h]
  · norm_num [calculateEfficiency, taskComponent, pomodoroComponent, focusComponent, round_eq]

/-- C6 witness: the branch characterizations instantiated at focusTime = 60,
240 and 420, and the clamped-sum form at (4,4,8,240). -/
theorem focusComponent_spec_witness :
    focusComponent 60 = 100 * (60 : ℚ) / 120 * (30 / 100)
    ∧ focusComponent 240 = 100 * (30 / 100)
    ∧ focusComponent 420 = max 80 (100 - 3 * (((420 : ℚ) - 360) / 60)) * (30 / 100)
    ∧ calculateEfficiency 4 4 8 240 = round (min 100 (max 0
        (taskComponent 4 4 + pomodoroComponent 8 + focusComponent 240))) :=
  ⟨focusComponent_spec.1 60 (by norm_num) (by norm_num),
   focusComponent_spec.2.1 240 (by norm_num) (by norm_num),
   focusComponent_spec.2.2.1 420 (by norm_num),
   focusComponent_spec.2.2.2.1 4 4 8 240 (by norm_num)⟩

/-- C7: with tasksPlanned = tasksCompleted = focusTime = 0 fixed, the score is
strictly increasing in pomodorosSessions from 3 to 6; the pomodoro
contribution is constant (sub-score 100, weighted 0.35) for sessions between
6 and 10; from 10 to 14 the pomodoro contribution strictly decreases while
the total never drops below 0.35 × 70 plus the other weighted
contributions. -/
theorem efficiency_pomodoro_monotonicity :
    (∀ p : ℕ, 3 ≤ p → p < 6 →
      calculateEfficiency 0 0 p 0 < calculateEfficiency 0 0 (p + 1) 0)
    ∧ (∀ p : ℕ, 6 ≤ p → p ≤ 10 → pomodoroComponent p = 100 * (35 / 100))
    ∧ (∀ p : ℕ, 10 ≤ p → p < 14 → pomodoroComponent (p + 1) < pomodoroComponent p)
    ∧ (∀ p : ℕ, 10 ≤ p → p ≤ 14 →
        70 * (35 / 100) + (taskComponent 0 0 + focusComponent 0)
          ≤ (calculateEfficiency 0 0 p 0 : ℚ)) := by
  refine ⟨fun p h3 h6 => ?_, fun p h6 h10 => ?_, fun p h10 h14 => ?_, fun p h10 h14 => ?_⟩
  · interval_cases p <;>
      norm_num [calculateEfficiency, taskComponent, pomodoroComponent, focusComponent, round_eq]
  · unfold pomodoroComponent
    rw [if_pos (by omega : p > 0), if_neg (by omega : ¬p < 6), if_neg (by omega : ¬p > 10)]
  · interval_cases p <;> norm_num [pomodoroComponent]
  · interval_cases p <;>
      norm_num [calculateEfficiency, taskComponent, pomodoroComponent, focusComponent, round_eq]

/-- C7 witness: the four parts instantiated at pomodorosSessions = 3, 8, 10
and 12. -/
theorem efficiency_pomodoro_monotonicity_witness :
    calculateEfficiency 0 0 3 0 < calculateEfficiency 0 0 (3 + 1) 0
    ∧ pomodoroComponent 8 = 100 * (35 / 100)
    ∧ pomodoroComponent (10 + 1) < pomodoroComponent 10
    ∧ 70 * (35 / 100) + (taskComponent 0 0 + focusComponent 0)
        ≤ (calculateEfficiency 0 0 12 0 : ℚ) :=
  ⟨efficiency_pomodoro_monotonicity.1 3 (by norm_num) (by norm_num),
   efficiency_pomodoro_monotonicity.2.1 8 (by norm_num) (by norm_num),
   efficiency_pomodoro_monotonicity.2.2.1 10 (by norm_num) (by norm_num),
   efficiency_pomodoro_monotonicity.2.2.2 12 (by norm_num) (by norm_num)⟩

/-- C10: the score is not monotone non-increasing in tasksPlanned: at
(0,1,0,0) the score is 7 while at (1,1,0,0) it is 35, so adding the planned
task strictly increases the score across the tasksPlanned = 0 boundary. -/
theorem efficiency_not_antitone_in_tasksPlanned :
    calculateEfficiency 0 1 0 0 = 7 ∧ calculateEfficiency 1 1 0 0 = 35
    ∧ calculateEfficiency 0 1 0 0 < calculateEfficiency 1 1 0 0 := by
  refine ⟨?_, ?_, ?_⟩ <;>
    norm_num [calculateEfficiency, taskComponent, pomodoroComponent, focusComponent, round_eq]

/-- C8: if the fetch of today's DailyStat row fails with a storage error, or
no row exists for today, `updateDailyEfficiency` returns with the state
unchanged (no write is performed); in the model it returns normally, so no
error reaches the caller. -/
theorem updateDailyEfficiency_aborts_without_write (s : State) (d : ℕ)
    (h : s.statsFetchFails = true ∨ s.statsToday = none) :
    updateDailyEfficiency s d = s := by
  rcases h with h | h
  · simp [updateDailyEfficiency, h]
  · simp [updateDailyEfficiency, h]

/-- C8 witness: the abort behavior at a concrete state with no row for
today. -/
theorem updateDailyEfficiency_aborts_without_write_witness :
    updateDailyEfficiency ⟨[], none, 0, 100, false, false, false, false, true, 9⟩ 1
      = ⟨[], none, 0, 100, false, false, false, false, true, 9⟩ :=
  updateDailyEfficiency_aborts_without_write _ 1 (Or.inr rfl)

/-- C9: on a successful run (fetch succeeds, a row exists, the tasks query
and the write succeed), `updateDailyEfficiency` performs one write that sets
`efficiency_score` to `calculateEfficiency` of (today's planned-task count,
stored tasksCompleted + additionalTasks, stored pomodoro sessions, stored
focus minutes), sets `tasks_completed` to the stored value plus
additionalTasks exactly when additionalTasks > 0 (otherwise leaves it
untouched), and changes nothing else in the state. -/
theorem updateDailyEfficiency_success_write (s : State) (stats : StatsRow) (d : ℕ)
    (hfetch : s.statsFetchFails = false) (hrow : s.statsToday = some stats)
    (htasks : s.tasksFetchFails = false) (hwrite : s.statsWriteFails = false) :
    updateDailyEfficiency s d =
      State.mk s.tasks
        (some (StatsRow.mk stats.id
          (if 0 < d then some (stats.tasks_completed.getD 0 + d) else stats.tasks_completed)
          stats.pomodoro_sessions stats.focus_time
          (some (calculateEfficiency (tasksPlannedCount s)
            (stats.tasks_completed.getD 0 + d)
            (stats.pomodoro_sessions.getD 0) (stats.focus_time.getD 0)))))
        s.dayStart s.dayEnd s.statsFetchFails s.tasksFetchFails s.statsWriteFails
        s.taskWriteFails s.hasUser s.freshId := by
  cases s
  cases stats
  simp_all [updateDailyEfficiency]

/-- C9 witness: a concrete successful run with additionalTasks = 1: the write
updates both fields and nothing else. -/
theorem updateDailyEfficiency_success_write_witness :
    updateDailyEfficiency
        ⟨[⟨1, true, 10⟩], some ⟨5, some 2, some 8, some 240, some 0⟩,
          0, 100, false, false, false, false, true, 9⟩ 1
      = ⟨[⟨1, true, 10⟩], some ⟨5, some 3, some 8, some 240, some 100⟩,
          0, 100, false, false, false, false, true, 9⟩ := by
  rw [updateDailyEfficiency_success_write _ ⟨5, some 2, some 8, some 240, some 0⟩ 1
    rfl rfl rfl rfl]
  norm_num [tasksPlannedCount, calculateEfficiency, taskComponent, pomodoroComponent,
    focusComponent, round_eq, List.filter]

/-- C1: the task-completion toggle flow does not leave the stored
tasks_completed exactly one greater: starting from a state whose DailyStat
row for today has tasks_completed = 0, with one incomplete task planned
today and every storage operation succeeding, one call of
`toggleTaskCompletion` first increments the stored count to 1 and then
`updateDailyEfficiency` (invoked with additionalTasks = 1) refetches that
value and persists 1 + 1 = 2 — the single completion event is counted
twice. -/
theorem toggleTaskCompletion_double_counts :
    (toggleTaskCompletion
        ⟨[⟨1, false, 10⟩], some ⟨5, some 0, some 0, some 0, some 0⟩,
          0, 100, false, false, false, false, true, 9⟩ 1 false).statsToday
      = some ⟨5, some 2, some 0, some 0, some 35⟩ := by
  norm_num [toggleTaskCompletion, updateDailyEfficiency, tasksPlannedCount,
    calculateEfficiency, taskComponent, pomodoroComponent, focusComponent,
    round_eq, List.filter]

end ProductiveMayo
